import Mathlib

/-!
Verification of the tracer diffusive-flux kernel of the Lecoanet-KH-PLUTO
repository (src/tracer_rhs_flux.c), under the compile-time configuration of
src/definitions.h: PHYSICS = HD, GEOMETRY = CARTESIAN, DIMENSIONS = 2,
NTRACER = 1, with the unit definitions UNIT_LENGTH = g_inputParam[LENGTH] and
UNIT_VELOCITY = g_inputParam[U_FLOW].

The C arrays are modelled as total functions on ℤ (cell index) and ℕ
(component index); `double` arithmetic is modelled by exact rational
arithmetic ℚ.  The preprocessor macro DIM_EXPAND(a,b,c) expands to `a b` at
DIMENSIONS = 2, so in the IDIR and JDIR sweep branches only gradient
components 0 and 1 are written; the KDIR branch of the C source is not
wrapped in DIM_EXPAND and writes all three components.  The static buffer
`gradTRC` and the output array `tracer_flux` are passed in explicitly and the
updated versions are returned, which makes the write footprint of the call an
explicit function.
-/

namespace KHPluto

/-- The three sweep directions IDIR, JDIR, KDIR of the host framework. -/
inductive Dir
  | IDIR
  | JDIR
  | KDIR
deriving DecidableEq

/-- Numeric index of a direction, as used for `gradTRC[trc][i][g_dir]`. -/
def dirIdx : Dir → ℕ
  | Dir.IDIR => 0
  | Dir.JDIR => 1
  | Dir.KDIR => 2

/-- The grid metric arrays used by the kernel: `grid->dx`, `grid->inv_dx`,
`grid->inv_dxi`, `grid->x`, `grid->xr`, indexed by direction and cell index. -/
structure Grid where
  dx : Dir → ℤ → ℚ
  inv_dx : Dir → ℤ → ℚ
  inv_dxi : Dir → ℤ → ℚ
  x : Dir → ℤ → ℚ
  xr : Dir → ℤ → ℚ

/-- The host globals read by the kernel: the sweep direction `g_dir` and the
fixed transverse indices `g_i`, `g_j`, `g_k`. -/
structure Globals where
  g_dir : Dir
  g_i : ℤ
  g_j : ℤ
  g_k : ℤ

/-- The sweep structure; the kernel only reads `sweep->vn` (cell-centered
primitive variables along the sweep line, indexed by cell and variable). -/
structure Sweep where
  vn : ℤ → ℕ → ℚ

/-- NTRACER from definitions.h. -/
def NTRACER : ℕ := 1

/-- Index of the density variable RHO in the primitive-variable vector. -/
def RHO : ℕ := 0

/-- User-parameter index REYNOLDS from definitions.h. -/
def REYNOLDS : ℕ := 1

/-- User-parameter index U_FLOW from definitions.h. -/
def U_FLOW : ℕ := 7

/-- User-parameter index RHO0 from definitions.h. -/
def RHO0 : ℕ := 8

/-- User-parameter index LENGTH from definitions.h. -/
def LENGTH : ℕ := 10

/-- UNIT_LENGTH = g_inputParam[LENGTH] (definitions.h). -/
def UNIT_LENGTH (g_inputParam : ℕ → ℚ) : ℚ := g_inputParam LENGTH

/-- UNIT_VELOCITY = g_inputParam[U_FLOW] (definitions.h). -/
def UNIT_VELOCITY (g_inputParam : ℕ → ℚ) : ℚ := g_inputParam U_FLOW

/-- del_u = 2*g_inputParam[U_FLOW] (RHS_TRACER_Flux). -/
def del_u (g_inputParam : ℕ → ℚ) : ℚ := 2 * g_inputParam U_FLOW

/-- chi = g_inputParam[LENGTH]*del_u/g_inputParam[REYNOLDS] (RHS_TRACER_Flux). -/
def chi (g_inputParam : ℕ → ℚ) : ℚ :=
  g_inputParam LENGTH * del_u g_inputParam / g_inputParam REYNOLDS

/-- nu_dye = chi/(UNIT_LENGTH*UNIT_VELOCITY) (RHS_TRACER_Flux). -/
def nu_dye (g_inputParam : ℕ → ℚ) : ℚ :=
  chi g_inputParam / (UNIT_LENGTH g_inputParam * UNIT_VELOCITY g_inputParam)

/-- The interface interpolation of step 3a of RHS_TRACER_Flux:
`vi[nv] = (vc[i][nv]*dx[i] + vc[i+1][nv]*dx[i+1])/(dx[i]+dx[i+1])`
with `dx = grid->dx[g_dir]`. -/
def vi (vc : ℤ → ℕ → ℚ) (grid : Grid) (d : Dir) (i : ℤ) (nv : ℕ) : ℚ :=
  (vc i nv * grid.dx d i + vc (i + 1) nv * grid.dx d (i + 1)) /
    (grid.dx d i + grid.dx d (i + 1))

/-- GetTracerGradient (tracer_rhs_flux.c), resolved at GEOMETRY = CARTESIAN
and DIMENSIONS = 2.  `Field` is indexed `Field k j i` as in the C source
`Field[k][j][i]`.  For each sweep index `n` in the inclusive range
[beg, iend] the loop body overwrites the gradient components listed below;
every other entry of the buffer keeps its previous value.

IDIR branch (i runs, j = g_j, k = g_k fixed): components 0 and 1, with
dl1 = inv_dxi[IDIR][i] and dl2 = inv_dx[JDIR][j] (no metric correction in
Cartesian geometry); component 2 is omitted by DIM_EXPAND at 2D.

JDIR branch (j runs, i = g_i, k = g_k fixed): components 0 and 1, with
dl1 = inv_dx[IDIR][i] and dl2 = inv_dxi[JDIR][j]; component 2 omitted.

KDIR branch (k runs, i = g_i, j = g_j fixed): all three components, with
dl1 = inv_dx[IDIR][i], dl2 = inv_dx[JDIR][j], dl3 = inv_dxi[KDIR][k]. -/
def GetTracerGradient (Field : ℤ → ℤ → ℤ → ℚ) (gradField : ℤ → ℕ → ℚ)
    (beg iend : ℤ) (grid : Grid) (g : Globals) : ℤ → ℕ → ℚ :=
  fun n c =>
    if beg ≤ n ∧ n ≤ iend then
      match g.g_dir, c with
      | Dir.IDIR, 0 =>
          (Field g.g_k g.g_j (n + 1) - Field g.g_k g.g_j n) * grid.inv_dxi Dir.IDIR n
      | Dir.IDIR, 1 =>
          (0.25 : ℚ) * (Field g.g_k (g.g_j + 1) n + Field g.g_k (g.g_j + 1) (n + 1)
            - Field g.g_k (g.g_j - 1) n - Field g.g_k (g.g_j - 1) (n + 1)) *
            grid.inv_dx Dir.JDIR g.g_j
      | Dir.JDIR, 0 =>
          (0.25 : ℚ) * (Field g.g_k n (g.g_i + 1) + Field g.g_k (n + 1) (g.g_i + 1)
            - Field g.g_k n (g.g_i - 1) - Field g.g_k (n + 1) (g.g_i - 1)) *
            grid.inv_dx Dir.IDIR g.g_i
      | Dir.JDIR, 1 =>
          (Field g.g_k (n + 1) g.g_i - Field g.g_k n g.g_i) * grid.inv_dxi Dir.JDIR n
      | Dir.KDIR, 0 =>
          (0.25 : ℚ) * (Field n g.g_j (g.g_i + 1) + Field (n + 1) g.g_j (g.g_i + 1)
            - Field n g.g_j (g.g_i - 1) - Field (n + 1) g.g_j (g.g_i - 1)) *
            grid.inv_dx Dir.IDIR g.g_i
      | Dir.KDIR, 1 =>
          (0.25 : ℚ) * (Field n (g.g_j + 1) g.g_i + Field (n + 1) (g.g_j + 1) g.g_i
            - Field n (g.g_j - 1) g.g_i - Field (n + 1) (g.g_j - 1) g.g_i) *
            grid.inv_dx Dir.JDIR g.g_j
      | Dir.KDIR, 2 =>
          (Field (n + 1) g.g_j g.g_i - Field n g.g_j g.g_i) * grid.inv_dxi Dir.KDIR n
      | _, c => gradField n c
    else gradField n c

/-- RHS_TRACER_Flux (tracer_rhs_flux.c).  For each tracer species the C code
first fills `gradTRC[trc]` by GetTracerGradient and then, for each `i` in the
inclusive range [beg, iend], writes
`tracer_flux[i][trc] = vi[RHO]*nu_dye*gradTRC[trc][i][g_dir]`.
The pair returned is (updated tracer_flux, updated gradTRC buffer). -/
def RHS_TRACER_Flux (TracerField : Fin NTRACER → ℤ → ℤ → ℤ → ℚ) (sweep : Sweep)
    (tracer_flux : ℤ → Fin NTRACER → ℚ) (gradTRC : Fin NTRACER → ℤ → ℕ → ℚ)
    (beg iend : ℤ) (grid : Grid) (g : Globals) (g_inputParam : ℕ → ℚ) :
    (ℤ → Fin NTRACER → ℚ) × (Fin NTRACER → ℤ → ℕ → ℚ) :=
  (fun i trc =>
      if beg ≤ i ∧ i ≤ iend then
        vi sweep.vn grid g.g_dir i RHO * nu_dye g_inputParam *
          GetTracerGradient (TracerField trc) (gradTRC trc) beg iend grid g i
            (dirIdx g.g_dir)
      else tracer_flux i trc,
   fun trc => GetTracerGradient (TracerField trc) (gradTRC trc) beg iend grid g)

/-! Concrete instances used by the witness theorems below. -/

/-- The single tracer species index (NTRACER = 1). -/
def t0 : Fin NTRACER := ⟨0, Nat.zero_lt_one⟩

/-- A concrete tracer field whose value is the IDIR cell index. -/
def cField : ℤ → ℤ → ℤ → ℚ := fun _ _ i => (i : ℚ)

/-- Concrete per-species tracer fields. -/
def cTF : Fin NTRACER → ℤ → ℤ → ℤ → ℚ := fun _ => cField

/-- A concrete sweep with unit density everywhere. -/
def cSweep : Sweep := ⟨fun _ _ => 1⟩

/-- A concrete grid with unit spacings and cell centers at the integers. -/
def cGrid : Grid :=
  ⟨fun _ _ => 1, fun _ _ => 1, fun _ _ => 1, fun _ i => (i : ℚ), fun _ i => (i : ℚ) + 0.5⟩

/-- Concrete globals: an IDIR sweep through the line j = 0, k = 0. -/
def cG : Globals := ⟨Dir.IDIR, 0, 0, 0⟩

/-- Concrete input parameters, all equal to 1. -/
def cP : ℕ → ℚ := fun _ => 1

/-- A concrete pre-filled flux array (sentinel value 99 everywhere). -/
def cFlux0 : ℤ → Fin NTRACER → ℚ := fun _ _ => 99

/-- A concrete stale gradient buffer (value 7 everywhere). -/
def cGrad0 : Fin NTRACER → ℤ → ℕ → ℚ := fun _ _ _ => 7

/-- A concrete stale single-species gradient buffer. -/
def cGF : ℤ → ℕ → ℚ := fun _ _ => 7

/-! ## Claims -/

/-- Claim C1: for every species index trc and cell index i in [beg, end],
RHS_TRACER_Flux sets tracer_flux[i][trc] = rho_interface * nu * grad[i][g_dir],
where rho_interface is the spacing-weighted average
(vc[i][RHO]*dx[i] + vc[i+1][RHO]*dx[i+1])/(dx[i]+dx[i+1]) of the two adjacent
cell densities, nu = chi/(UNIT_LENGTH*UNIT_VELOCITY) with
chi = LENGTH*(2*U_FLOW)/REYNOLDS, and grad[i][g_dir] is the sweep-direction
gradient component returned by GetTracerGradient for that cell. -/
theorem C1_flux_formula (TracerField : Fin NTRACER → ℤ → ℤ → ℤ → ℚ) (sweep : Sweep)
    (tracer_flux : ℤ → Fin NTRACER → ℚ) (gradTRC : Fin NTRACER → ℤ → ℕ → ℚ)
    (beg iend : ℤ) (grid : Grid) (g : Globals) (g_inputParam : ℕ → ℚ)
    (trc : Fin NTRACER) (i : ℤ) (h1 : beg ≤ i) (h2 : i ≤ iend) :
    (RHS_TRACER_Flux TracerField sweep tracer_flux gradTRC beg iend grid g
        g_inputParam).1 i trc =
      ((sweep.vn i RHO * grid.dx g.g_dir i + sweep.vn (i + 1) RHO * grid.dx g.g_dir (i + 1)) /
          (grid.dx g.g_dir i + grid.dx g.g_dir (i + 1))) *
        (g_inputParam LENGTH * (2 * g_inputParam U_FLOW) / g_inputParam REYNOLDS /
          (UNIT_LENGTH g_inputParam * UNIT_VELOCITY g_inputParam)) *
        GetTracerGradient (TracerField trc) (gradTRC trc) beg iend grid g i
          (dirIdx g.g_dir) := by
  simp [RHS_TRACER_Flux, vi, nu_dye, chi, del_u, h1, h2]

/-- Witness for C1 at a concrete input: beg = 0, end = 2, i = 1. -/
theorem C1_flux_formula_witness :
    ((0 : ℤ) ≤ 1 ∧ (1 : ℤ) ≤ 2) ∧
      (RHS_TRACER_Flux cTF cSweep cFlux0 cGrad0 0 2 cGrid cG cP).1 1 t0 = 2 :=
  ⟨⟨by decide, by decide⟩,
    (C1_flux_formula cTF cSweep cFlux0 cGrad0 0 2 cGrid cG cP t0 1 (by decide)
      (by decide)).trans (by
        norm_num [cTF, cField, cSweep, cGrid, cG, cP, cGrad0, GetTracerGradient,
          dirIdx, UNIT_LENGTH, UNIT_VELOCITY, RHO, LENGTH, U_FLOW, REYNOLDS])⟩

/-- Claim C2: for every cell index i in [beg, end], the gradient component
along the active sweep direction computed by GetTracerGradient equals the
difference of the two neighboring cell-centered field values across the
interface times the inverse interface spacing, (Field[next] - Field[current])
* inv_dxi, for each of the three possible sweep directions. -/
theorem C2_sweep_gradient (Field : ℤ → ℤ → ℤ → ℚ) (gradField : ℤ → ℕ → ℚ)
    (beg iend : ℤ) (grid : Grid) (gi gj gk i : ℤ) (h1 : beg ≤ i) (h2 : i ≤ iend) :
    (GetTracerGradient Field gradField beg iend grid ⟨Dir.IDIR, gi, gj, gk⟩ i
        (dirIdx Dir.IDIR) =
      (Field gk gj (i + 1) - Field gk gj i) * grid.inv_dxi Dir.IDIR i) ∧
    (GetTracerGradient Field gradField beg iend grid ⟨Dir.JDIR, gi, gj, gk⟩ i
        (dirIdx Dir.JDIR) =
      (Field gk (i + 1) gi - Field gk i gi) * grid.inv_dxi Dir.JDIR i) ∧
    (GetTracerGradient Field gradField beg iend grid ⟨Dir.KDIR, gi, gj, gk⟩ i
        (dirIdx Dir.KDIR) =
      (Field (i + 1) gj gi - Field i gj gi) * grid.inv_dxi Dir.KDIR i) := by
  refine ⟨?_, ?_, ?_⟩ <;> simp [GetTracerGradient, dirIdx, h1, h2]

/-- Witness for C2 at a concrete input: beg = 0, end = 0, i = 0, with the
field whose value is the IDIR cell index. -/
theorem C2_sweep_gradient_witness :
    (GetTracerGradient cField cGF 0 0 cGrid ⟨Dir.IDIR, 0, 0, 0⟩ 0 (dirIdx Dir.IDIR) =
      (cField 0 0 (0 + 1) - cField 0 0 0) * cGrid.inv_dxi Dir.IDIR 0) ∧
    (GetTracerGradient cField cGF 0 0 cGrid ⟨Dir.JDIR, 0, 0, 0⟩ 0 (dirIdx Dir.JDIR) =
      (cField 0 (0 + 1) 0 - cField 0 0 0) * cGrid.inv_dxi Dir.JDIR 0) ∧
    (GetTracerGradient cField cGF 0 0 cGrid ⟨Dir.KDIR, 0, 0, 0⟩ 0 (dirIdx Dir.KDIR) =
      (cField (0 + 1) 0 0 - cField 0 0 0) * cGrid.inv_dxi Dir.KDIR 0) :=
  C2_sweep_gradient cField cGF 0 0 cGrid 0 0 0 0 (by decide) (by decide)

/-- Claim C3: for every cell index i in [beg, end] and each transverse
direction computed in this configuration, the transverse gradient component
equals 0.25 times the sum of the field values at transverse offset +1 (at the
current and the sweep-forward cell) minus the field values at transverse
offset -1 (at the same two cells), multiplied by the inverse transverse
spacing; in the Cartesian configuration no radial or sine metric scaling is
applied (scale factor 1).  At DIMENSIONS = 2 the computed transverse
components are component 1 for an IDIR sweep, component 0 for a JDIR sweep,
and components 0 and 1 for the (compiled) KDIR branch. -/
theorem C3_transverse_gradient (Field : ℤ → ℤ → ℤ → ℚ) (gradField : ℤ → ℕ → ℚ)
    (beg iend : ℤ) (grid : Grid) (gi gj gk i : ℤ) (h1 : beg ≤ i) (h2 : i ≤ iend) :
    (GetTracerGradient Field gradField beg iend grid ⟨Dir.IDIR, gi, gj, gk⟩ i 1 =
      (0.25 : ℚ) * (Field gk (gj + 1) i + Field gk (gj + 1) (i + 1)
        - Field gk (gj - 1) i - Field gk (gj - 1) (i + 1)) * grid.inv_dx Dir.JDIR gj) ∧
    (GetTracerGradient Field gradField beg iend grid ⟨Dir.JDIR, gi, gj, gk⟩ i 0 =
      (0.25 : ℚ) * (Field gk i (gi + 1) + Field gk (i + 1) (gi + 1)
        - Field gk i (gi - 1) - Field gk (i + 1) (gi - 1)) * grid.inv_dx Dir.IDIR gi) ∧
    (GetTracerGradient Field gradField beg iend grid ⟨Dir.KDIR, gi, gj, gk⟩ i 0 =
      (0.25 : ℚ) * (Field i gj (gi + 1) + Field (i + 1) gj (gi + 1)
        - Field i gj (gi - 1) - Field (i + 1) gj (gi - 1)) * grid.inv_dx Dir.IDIR gi) ∧
    (GetTracerGradient Field gradField beg iend grid ⟨Dir.KDIR, gi, gj, gk⟩ i 1 =
      (0.25 : ℚ) * (Field i (gj + 1) gi + Field (i + 1) (gj + 1) gi
        - Field i (gj - 1) gi - Field (i + 1) (gj - 1) gi) * grid.inv_dx Dir.JDIR gj) := by
  refine ⟨?_, ?_, ?_, ?_⟩ <;> simp [GetTracerGradient, h1, h2]

/-- Witness for C3 at a concrete input: beg = 0, end = 0, i = 0. -/
theorem C3_transverse_gradient_witness :
    (GetTracerGradient cField cGF 0 0 cGrid ⟨Dir.IDIR, 0, 0, 0⟩ 0 1 =
      (0.25 : ℚ) * (cField 0 (0 + 1) 0 + cField 0 (0 + 1) (0 + 1)
        - cField 0 (0 - 1) 0 - cField 0 (0 - 1) (0 + 1)) * cGrid.inv_dx Dir.JDIR 0) ∧
    (GetTracerGradient cField cGF 0 0 cGrid ⟨Dir.JDIR, 0, 0, 0⟩ 0 0 =
      (0.25 : ℚ) * (cField 0 0 (0 + 1) + cField 0 (0 + 1) (0 + 1)
        - cField 0 0 (0 - 1) - cField 0 (0 + 1) (0 - 1)) * cGrid.inv_dx Dir.IDIR 0) ∧
    (GetTracerGradient cField cGF 0 0 cGrid ⟨Dir.KDIR, 0, 0, 0⟩ 0 0 =
      (0.25 : ℚ) * (cField 0 0 (0 + 1) + cField (0 + 1) 0 (0 + 1)
        - cField 0 0 (0 - 1) - cField (0 + 1) 0 (0 - 1)) * cGrid.inv_dx Dir.IDIR 0) ∧
    (GetTracerGradient cField cGF 0 0 cGrid ⟨Dir.KDIR, 0, 0, 0⟩ 0 1 =
      (0.25 : ℚ) * (cField 0 (0 + 1) 0 + cField (0 + 1) (0 + 1) 0
        - cField 0 (0 - 1) 0 - cField (0 + 1) (0 - 1) 0) * cGrid.inv_dx Dir.JDIR 0) :=
  C3_transverse_gradient cField cGF 0 0 cGrid 0 0 0 0 (by decide) (by decide)

/-- The sweep-line index of a cell (k, j, i) for a given sweep direction:
the coordinate that the sweep loop runs over. -/
def sweepIdx : Dir → ℤ → ℤ → ℤ → ℤ
  | Dir.IDIR, _, _, i => i
  | Dir.JDIR, _, j, _ => j
  | Dir.KDIR, k, _, _ => k

/-- Claim C4: for every tracer field that is an affine function
a + b * x of the sweep-direction cell-center coordinate x, and every grid
whose inverse interface spacing inv_dxi is the reciprocal of the distance
between consecutive cell centers (no uniformity assumed), the sweep-direction
gradient component computed by GetTracerGradient equals b at every interface
in [beg, end]. -/
theorem C4_linear_field_exact (a b : ℚ) (Field : ℤ → ℤ → ℤ → ℚ)
    (gradField : ℤ → ℕ → ℚ) (beg iend : ℤ) (grid : Grid) (g : Globals)
    (hfield : ∀ k j i : ℤ, Field k j i =
      a + b * grid.x g.g_dir (sweepIdx g.g_dir k j i))
    (hgrid : ∀ n : ℤ, grid.inv_dxi g.g_dir n *
      (grid.x g.g_dir (n + 1) - grid.x g.g_dir n) = 1)
    (i : ℤ) (h1 : beg ≤ i) (h2 : i ≤ iend) :
    GetTracerGradient Field gradField beg iend grid g i (dirIdx g.g_dir) = b := by
  obtain ⟨d, gi, gj, gk⟩ := g
  cases d <;>
    simp only [GetTracerGradient, dirIdx, h1, h2, and_self, if_true, hfield, sweepIdx] <;>
    linear_combination b * hgrid i

/-- Witness for C4: the field 3 + 5 * i on the unit grid gives gradient 5. -/
theorem C4_linear_field_exact_witness :
    GetTracerGradient (fun _ _ i => (3 : ℚ) + 5 * (i : ℚ)) cGF 0 0 cGrid cG 0
      (dirIdx cG.g_dir) = 5 :=
  C4_linear_field_exact 3 5 (fun _ _ i => (3 : ℚ) + 5 * (i : ℚ)) cGF 0 0 cGrid cG
    (fun _ _ _ => rfl)
    (fun n => by show (1 : ℚ) * ((n + 1 : ℤ) - (n : ℤ) : ℚ) = 1; push_cast; ring)
    0 (by decide) (by decide)

/-- The set of gradient components written by the GetTracerGradient loop body
for a given sweep direction in this configuration (GEOMETRY = CARTESIAN,
DIMENSIONS = 2): components 0 and 1 for IDIR and JDIR sweeps, all three for
the KDIR branch. -/
def writesComponent : Dir → ℕ → Bool
  | Dir.IDIR, 0 => true
  | Dir.IDIR, 1 => true
  | Dir.JDIR, 0 => true
  | Dir.JDIR, 1 => true
  | Dir.KDIR, 0 => true
  | Dir.KDIR, 1 => true
  | Dir.KDIR, 2 => true
  | _, _ => false

/-- A uniform field used by the C5 witness. -/
def uField : ℤ → ℤ → ℤ → ℚ := fun _ _ _ => 3

/-- Uniform per-species tracer fields for the C5 witness. -/
def uTF : Fin NTRACER → ℤ → ℤ → ℤ → ℚ := fun _ => uField

/-- Claim C5: for a spatially uniform tracer field, every gradient component
written by GetTracerGradient is exactly zero at every interface in [beg, end]
for every sweep direction, and consequently the flux written by
RHS_TRACER_Flux is exactly zero at every such cell, regardless of the
interpolated interface density and of the stale gradient-buffer contents. -/
theorem C5_uniform_field_zero (v : ℚ) (TracerField : Fin NTRACER → ℤ → ℤ → ℤ → ℚ)
    (hTF : ∀ (trc : Fin NTRACER) (k j i : ℤ), TracerField trc k j i = v)
    (sweep : Sweep) (tracer_flux : ℤ → Fin NTRACER → ℚ)
    (gradTRC : Fin NTRACER → ℤ → ℕ → ℚ) (beg iend : ℤ) (grid : Grid)
    (g : Globals) (g_inputParam : ℕ → ℚ) (trc : Fin NTRACER) (i : ℤ) (c : ℕ)
    (hc : writesComponent g.g_dir c = true) (h1 : beg ≤ i) (h2 : i ≤ iend) :
    (RHS_TRACER_Flux TracerField sweep tracer_flux gradTRC beg iend grid g
        g_inputParam).2 trc i c = 0 ∧
    (RHS_TRACER_Flux TracerField sweep tracer_flux gradTRC beg iend grid g
        g_inputParam).1 i trc = 0 := by
  obtain ⟨d, gi, gj, gk⟩ := g
  constructor
  · cases d <;>
      ( simp only [writesComponent] at hc
        rcases c with _ | _ | _ | c <;> simp_all [RHS_TRACER_Flux, GetTracerGradient, hTF] )
  · cases d <;>
      simp [RHS_TRACER_Flux, GetTracerGradient, dirIdx, h1, h2, hTF]

/-- Witness for C5: the uniform field with value 3, an IDIR sweep, component 0. -/
theorem C5_uniform_field_zero_witness :
    (RHS_TRACER_Flux uTF cSweep cFlux0 cGrad0 0 0 cGrid cG cP).2 t0 0 0 = 0 ∧
    (RHS_TRACER_Flux uTF cSweep cFlux0 cGrad0 0 0 cGrid cG cP).1 0 t0 = 0 :=
  C5_uniform_field_zero 3 uTF (fun _ _ _ _ => rfl) cSweep cFlux0 cGrad0 0 0 cGrid
    cG cP t0 0 0 (by decide) (by decide) (by decide)

/-- Overwrite one entry of the input-parameter table, leaving the rest. -/
def updateParam (g_inputParam : ℕ → ℚ) (idx : ℕ) (v : ℚ) : ℕ → ℚ :=
  fun n => if n = idx then v else g_inputParam n

/-- Claim C6: for a fixed tracer field, sweep state, grid and index range,
doubling REYNOLDS exactly halves nu_dye and exactly halves every flux value
written by RHS_TRACER_Flux; more generally the written flux is
(1/REYNOLDS) times the flux obtained with REYNOLDS = 1. -/
theorem C6_reynolds_scaling (TracerField : Fin NTRACER → ℤ → ℤ → ℤ → ℚ)
    (sweep : Sweep) (tracer_flux : ℤ → Fin NTRACER → ℚ)
    (gradTRC : Fin NTRACER → ℤ → ℕ → ℚ) (beg iend : ℤ) (grid : Grid)
    (g : Globals) (g_inputParam : ℕ → ℚ) (trc : Fin NTRACER) (i : ℤ)
    (h1 : beg ≤ i) (h2 : i ≤ iend) :
    nu_dye (updateParam g_inputParam REYNOLDS (2 * g_inputParam REYNOLDS)) =
      nu_dye g_inputParam / 2 ∧
    (RHS_TRACER_Flux TracerField sweep tracer_flux gradTRC beg iend grid g
        (updateParam g_inputParam REYNOLDS (2 * g_inputParam REYNOLDS))).1 i trc =
      (RHS_TRACER_Flux TracerField sweep tracer_flux gradTRC beg iend grid g
        g_inputParam).1 i trc / 2 ∧
    (RHS_TRACER_Flux TracerField sweep tracer_flux gradTRC beg iend grid g
        g_inputParam).1 i trc =
      (g_inputParam REYNOLDS)⁻¹ *
        (RHS_TRACER_Flux TracerField sweep tracer_flux gradTRC beg iend grid g
          (updateParam g_inputParam REYNOLDS 1)).1 i trc := by
  have hnu2 : nu_dye (updateParam g_inputParam REYNOLDS (2 * g_inputParam REYNOLDS)) =
      nu_dye g_inputParam / 2 := by
    simp only [nu_dye, chi, del_u, UNIT_LENGTH, UNIT_VELOCITY, updateParam,
      REYNOLDS, U_FLOW, LENGTH]
    norm_num
    ring
  have hnu1 : nu_dye g_inputParam =
      (g_inputParam REYNOLDS)⁻¹ * nu_dye (updateParam g_inputParam REYNOLDS 1) := by
    simp only [nu_dye, chi, del_u, UNIT_LENGTH, UNIT_VELOCITY, updateParam,
      REYNOLDS, U_FLOW, LENGTH]
    norm_num
    ring
  refine ⟨hnu2, ?_, ?_⟩
  · simp only [RHS_TRACER_Flux, h1, h2, and_self, if_true, hnu2]
    ring
  · simp only [RHS_TRACER_Flux, h1, h2, and_self, if_true, hnu1]
    ring

/-- Witness for C6 at a concrete input: beg = 0, end = 0, i = 0. -/
theorem C6_reynolds_scaling_witness :
    nu_dye (updateParam cP REYNOLDS (2 * cP REYNOLDS)) = nu_dye cP / 2 ∧
    (RHS_TRACER_Flux cTF cSweep cFlux0 cGrad0 0 0 cGrid cG
        (updateParam cP REYNOLDS (2 * cP REYNOLDS))).1 0 t0 =
      (RHS_TRACER_Flux cTF cSweep cFlux0 cGrad0 0 0 cGrid cG cP).1 0 t0 / 2 ∧
    (RHS_TRACER_Flux cTF cSweep cFlux0 cGrad0 0 0 cGrid cG cP).1 0 t0 =
      (cP REYNOLDS)⁻¹ *
        (RHS_TRACER_Flux cTF cSweep cFlux0 cGrad0 0 0 cGrid cG
          (updateParam cP REYNOLDS 1)).1 0 t0 :=
  C6_reynolds_scaling cTF cSweep cFlux0 cGrad0 0 0 cGrid cG cP t0 0
    (by decide) (by decide)

/-- Claim C7: a call to RHS_TRACER_Flux leaves every tracer_flux entry at an
index strictly outside [beg, end] at its previous value (pre-filled sentinels
persist); in this functional model the TracerField, sweep, and grid inputs
are immutable, so only the returned flux array and gradient buffer differ
from the inputs. -/
theorem C7_flux_frame (TracerField : Fin NTRACER → ℤ → ℤ → ℤ → ℚ) (sweep : Sweep)
    (tracer_flux : ℤ → Fin NTRACER → ℚ) (gradTRC : Fin NTRACER → ℤ → ℕ → ℚ)
    (beg iend : ℤ) (grid : Grid) (g : Globals) (g_inputParam : ℕ → ℚ)
    (trc : Fin NTRACER) (i : ℤ) (hout : i < beg ∨ iend < i) :
    (RHS_TRACER_Flux TracerField sweep tracer_flux gradTRC beg iend grid g
        g_inputParam).1 i trc = tracer_flux i trc := by
  have hni : ¬ (beg ≤ i ∧ i ≤ iend) := by omega
  simp [RHS_TRACER_Flux, hni]

/-- Witness for C7: with beg = 0, end = 0, the sentinel at index 5 persists. -/
theorem C7_flux_frame_witness :
    (RHS_TRACER_Flux cTF cSweep cFlux0 cGrad0 0 0 cGrid cG cP).1 5 t0 =
      cFlux0 5 t0 :=
  C7_flux_frame cTF cSweep cFlux0 cGrad0 0 0 cGrid cG cP t0 5 (Or.inr (by decide))

/-- Helper: the gradients written (and the buffer entries left in place) by
GetTracerGradient depend only on field values at cells whose sweep-line index
lies in [beg, end + 1]: two fields agreeing there give identical results. -/
theorem getTracerGradient_congr (F F' : ℤ → ℤ → ℤ → ℚ) (gradField : ℤ → ℕ → ℚ)
    (beg iend : ℤ) (grid : Grid) (g : Globals)
    (hF : ∀ k j i : ℤ, beg ≤ sweepIdx g.g_dir k j i →
      sweepIdx g.g_dir k j i ≤ iend + 1 → F k j i = F' k j i)
    (n : ℤ) (c : ℕ) :
    GetTracerGradient F gradField beg iend grid g n c =
      GetTracerGradient F' gradField beg iend grid g n c := by
  unfold GetTracerGradient
  by_cases hin : beg ≤ n ∧ n ≤ iend
  · simp only [hin, and_self, if_true]
    obtain ⟨d, gi, gj, gk⟩ := g
    cases d
    · have hFn : ∀ k j : ℤ, F k j n = F' k j n :=
        fun k j => hF k j n (by simp only [sweepIdx]; omega) (by simp only [sweepIdx]; omega)
      have hFn1 : ∀ k j : ℤ, F k j (n + 1) = F' k j (n + 1) :=
        fun k j => hF k j (n + 1) (by simp only [sweepIdx]; omega) (by simp only [sweepIdx]; omega)
      rcases c with _ | _ | _ | c <;> simp [hFn, hFn1]
    · have hFn : ∀ k i : ℤ, F k n i = F' k n i :=
        fun k i => hF k n i (by simp only [sweepIdx]; omega) (by simp only [sweepIdx]; omega)
      have hFn1 : ∀ k i : ℤ, F k (n + 1) i = F' k (n + 1) i :=
        fun k i => hF k (n + 1) i (by simp only [sweepIdx]; omega) (by simp only [sweepIdx]; omega)
      rcases c with _ | _ | _ | c <;> simp [hFn, hFn1]
    · have hFn : ∀ j i : ℤ, F n j i = F' n j i :=
        fun j i => hF n j i (by simp only [sweepIdx]; omega) (by simp only [sweepIdx]; omega)
      have hFn1 : ∀ j i : ℤ, F (n + 1) j i = F' (n + 1) j i :=
        fun j i => hF (n + 1) j i (by simp only [sweepIdx]; omega) (by simp only [sweepIdx]; omega)
      rcases c with _ | _ | _ | c <;> simp [hFn, hFn1]
  · simp only [hin, if_false]

/-- Counterexample to claim C8 as stated: with beg = 0, end = 0 the half-open
range [beg, end) is empty, yet the call overwrites the pre-filled sentinel at
index 0 = end, so index end (outside the half-open range) is written. -/
theorem C8_counterexample_endpoint_written :
    (RHS_TRACER_Flux cTF cSweep cFlux0 cGrad0 0 0 cGrid cG cP).1 0 t0 ≠
      cFlux0 0 t0 := by
  norm_num [RHS_TRACER_Flux, GetTracerGradient, vi, nu_dye, chi, del_u,
    UNIT_LENGTH, UNIT_VELOCITY, dirIdx, cTF, cField, cSweep, cGrid, cG, cP,
    cFlux0, cGrad0, RHO, LENGTH, U_FLOW, REYNOLDS]

/-- Claim C8 (amended): within a single sweep call, the gradient and flux
arrays are computed over the INCLUSIVE index range [beg, end]; no gradient or
flux array entry at an index outside [beg, end] is written, and the values
written depend only on input values whose sweep-line index lies in
[beg, end + 1] (the stencils also read the sweep-forward neighbor at end + 1
and transverse neighbors of the fixed line).  Formally: at any index iOut
outside [beg, end] both returned arrays agree with the inputs, and two calls
whose tracer fields and sweep states agree on sweep indices in [beg, end + 1]
return identical flux arrays. -/
theorem C8_inclusive_range_bounds (TracerField TracerField' : Fin NTRACER → ℤ → ℤ → ℤ → ℚ)
    (sweep sweep' : Sweep) (tracer_flux : ℤ → Fin NTRACER → ℚ)
    (gradTRC : Fin NTRACER → ℤ → ℕ → ℚ) (beg iend : ℤ) (grid : Grid)
    (g : Globals) (g_inputParam : ℕ → ℚ)
    (hTF : ∀ (trc : Fin NTRACER) (k j i : ℤ), beg ≤ sweepIdx g.g_dir k j i →
      sweepIdx g.g_dir k j i ≤ iend + 1 → TracerField trc k j i = TracerField' trc k j i)
    (hvn : ∀ (i : ℤ) (nv : ℕ), beg ≤ i → i ≤ iend + 1 →
      sweep.vn i nv = sweep'.vn i nv)
    (iOut : ℤ) (hout : iOut < beg ∨ iend < iOut) (i : ℤ) (trc : Fin NTRACER)
    (c : ℕ) :
    (RHS_TRACER_Flux TracerField sweep tracer_flux gradTRC beg iend grid g
        g_inputParam).1 iOut trc = tracer_flux iOut trc ∧
    (RHS_TRACER_Flux TracerField sweep tracer_flux gradTRC beg iend grid g
        g_inputParam).2 trc iOut c = gradTRC trc iOut c ∧
    (RHS_TRACER_Flux TracerField sweep tracer_flux gradTRC beg iend grid g
        g_inputParam).1 i trc =
      (RHS_TRACER_Flux TracerField' sweep' tracer_flux gradTRC beg iend grid g
        g_inputParam).1 i trc := by
  have hni : ¬ (beg ≤ iOut ∧ iOut ≤ iend) := by omega
  refine ⟨by simp [RHS_TRACER_Flux, hni], ?_, ?_⟩
  · simp [RHS_TRACER_Flux, GetTracerGradient, hni]
  · by_cases hin : beg ≤ i ∧ i ≤ iend
    · simp only [RHS_TRACER_Flux, hin, and_self, if_true]
      rw [getTracerGradient_congr (TracerField trc) (TracerField' trc)
        (gradTRC trc) beg iend grid g (fun k j n hk1 hk2 => hTF trc k j n hk1 hk2)]
      rw [vi, vi, hvn i RHO (by omega) (by omega),
        hvn (i + 1) RHO (by omega) (by omega)]
    · simp [RHS_TRACER_Flux, hin]

/-- Witness for C8 (amended) at a concrete input: beg = 0, end = 0,
out-of-range index iOut = -1. -/
theorem C8_inclusive_range_bounds_witness :
    (RHS_TRACER_Flux cTF cSweep cFlux0 cGrad0 0 0 cGrid cG cP).1 (-1) t0 =
      cFlux0 (-1) t0 ∧
    (RHS_TRACER_Flux cTF cSweep cFlux0 cGrad0 0 0 cGrid cG cP).2 t0 (-1) 0 =
      cGrad0 t0 (-1) 0 ∧
    (RHS_TRACER_Flux cTF cSweep cFlux0 cGrad0 0 0 cGrid cG cP).1 0 t0 =
      (RHS_TRACER_Flux cTF cSweep cFlux0 cGrad0 0 0 cGrid cG cP).1 0 t0 :=
  C8_inclusive_range_bounds cTF cTF cSweep cSweep cFlux0 cGrad0 0 0 cGrid cG cP
    (fun _ _ _ _ _ _ => rfl) (fun _ _ _ _ => rfl) (-1) (Or.inl (by decide)) 0 t0 0

/-- Claim C9: the flux output of RHS_TRACER_Flux does not depend on the
contents of the internal gradient buffer left over from earlier calls: two
runs differing only in the pre-existing buffer contents write identical
tracer_flux values on [beg, end], because the sweep-direction component read
by the flux loop is written earlier in the same call. -/
theorem C9_no_stale_reads (TracerField : Fin NTRACER → ℤ → ℤ → ℤ → ℚ)
    (sweep : Sweep) (tracer_flux : ℤ → Fin NTRACER → ℚ)
    (gradTRC gradTRC' : Fin NTRACER → ℤ → ℕ → ℚ) (beg iend : ℤ) (grid : Grid)
    (g : Globals) (g_inputParam : ℕ → ℚ) (trc : Fin NTRACER) (i : ℤ)
    (h1 : beg ≤ i) (h2 : i ≤ iend) :
    (RHS_TRACER_Flux TracerField sweep tracer_flux gradTRC beg iend grid g
        g_inputParam).1 i trc =
      (RHS_TRACER_Flux TracerField sweep tracer_flux gradTRC' beg iend grid g
        g_inputParam).1 i trc := by
  obtain ⟨d, gi, gj, gk⟩ := g
  cases d <;> simp [RHS_TRACER_Flux, GetTracerGradient, dirIdx, h1, h2]

/-- Witness for C9: the all-7 and all-13 stale buffers give the same flux. -/
theorem C9_no_stale_reads_witness :
    (RHS_TRACER_Flux cTF cSweep cFlux0 cGrad0 0 0 cGrid cG cP).1 0 t0 =
      (RHS_TRACER_Flux cTF cSweep cFlux0 (fun _ _ _ => 13) 0 0 cGrid cG cP).1 0 t0 :=
  C9_no_stale_reads cTF cSweep cFlux0 cGrad0 (fun _ _ _ => 13) 0 0 cGrid cG cP
    t0 0 (by decide) (by decide)

/-- Claim C10: under this repository's unit definitions the diffusivity
simplifies to nu_dye = 2/REYNOLDS (the LENGTH and U_FLOW factors cancel
exactly for nonzero values), so the flux written by RHS_TRACER_Flux does not
change when LENGTH and U_FLOW are replaced by any other nonzero values. -/
theorem C10_unit_cancellation (TracerField : Fin NTRACER → ℤ → ℤ → ℤ → ℚ)
    (sweep : Sweep) (tracer_flux : ℤ → Fin NTRACER → ℚ)
    (gradTRC : Fin NTRACER → ℤ → ℕ → ℚ) (beg iend : ℤ) (grid : Grid)
    (g : Globals) (g_inputParam : ℕ → ℚ) (L2 U2 : ℚ) (trc : Fin NTRACER) (i : ℤ)
    (hL : g_inputParam LENGTH ≠ 0) (hU : g_inputParam U_FLOW ≠ 0)
    (hL2 : L2 ≠ 0) (hU2 : U2 ≠ 0) (h1 : beg ≤ i) (h2 : i ≤ iend) :
    nu_dye g_inputParam = 2 / g_inputParam REYNOLDS ∧
    (RHS_TRACER_Flux TracerField sweep tracer_flux gradTRC beg iend grid g
        g_inputParam).1 i trc =
      (RHS_TRACER_Flux TracerField sweep tracer_flux gradTRC beg iend grid g
        (updateParam (updateParam g_inputParam LENGTH L2) U_FLOW U2)).1 i trc := by
  have key : ∀ q : ℕ → ℚ, q LENGTH ≠ 0 → q U_FLOW ≠ 0 →
      nu_dye q = 2 / q REYNOLDS := by
    intro q hqL hqU
    simp only [nu_dye, chi, del_u, UNIT_LENGTH, UNIT_VELOCITY]
    rcases eq_or_ne (q REYNOLDS) 0 with hR | hR
    · simp [hR]
    · field_simp
      ring
  have hp'L : updateParam (updateParam g_inputParam LENGTH L2) U_FLOW U2 LENGTH = L2 := by
    norm_num [updateParam, LENGTH, U_FLOW]
  have hp'U : updateParam (updateParam g_inputParam LENGTH L2) U_FLOW U2 U_FLOW = U2 := by
    norm_num [updateParam, LENGTH, U_FLOW]
  have hp'R : updateParam (updateParam g_inputParam LENGTH L2) U_FLOW U2 REYNOLDS =
      g_inputParam REYNOLDS := by
    norm_num [updateParam, LENGTH, U_FLOW, REYNOLDS]
  have hnu : nu_dye (updateParam (updateParam g_inputParam LENGTH L2) U_FLOW U2) =
      nu_dye g_inputParam := by
    rw [key _ (by rw [hp'L]; exact hL2) (by rw [hp'U]; exact hU2), hp'R,
      key g_inputParam hL hU]
  exact ⟨key g_inputParam hL hU, by
    simp only [RHS_TRACER_Flux, h1, h2, and_self, if_true, hnu]⟩

/-- Witness for C10: all parameters 1, replaced by LENGTH = 5 and U_FLOW = 7. -/
theorem C10_unit_cancellation_witness :
    nu_dye cP = 2 / cP REYNOLDS ∧
    (RHS_TRACER_Flux cTF cSweep cFlux0 cGrad0 0 0 cGrid cG cP).1 0 t0 =
      (RHS_TRACER_Flux cTF cSweep cFlux0 cGrad0 0 0 cGrid cG
        (updateParam (updateParam cP LENGTH 5) U_FLOW 7)).1 0 t0 :=
  C10_unit_cancellation cTF cSweep cFlux0 cGrad0 0 0 cGrid cG cP 5 7 t0 0
    one_ne_zero one_ne_zero (by norm_num) (by norm_num) (by decide) (by decide)

end KHPluto
